import Mathlib

/-!
Shallow embedding of the Cube-OS `spi-rs` crate (`src/lib.rs`), a thin SPI
hardware-abstraction layer.

The crate defines:

* a trait `Stream` with three operations `write`, `read`, `transfer`;
* a struct `Connection` owning one boxed `Stream` and forwarding each
  operation to it;
* a concrete implementation `SpiStream` owning a `spidev::Spidev` kernel
  device handle, with a constructor `SpiStream::new` that opens the device
  at a path and applies a `SpidevOptions` configuration.

Modelling conventions:

* Bytes are `Nat`; byte sequences are `List Nat`.
* `std::io::Result` becomes `Except IOErrorKind`.
* Methods taking `&mut self` are modelled state-passing: each returns its
  result paired with the successor state.  Methods taking `&self` are also
  given this uniform shape; state preservation is then a provable theorem
  about each implementation rather than an assumption baked into the types.
* The external kernel device (the `spidev` crate plus the kernel driver) is
  an oracle: a `Spidev` value records, for each possible call, the response
  the device would give.  `Read::read(&mut buf)` fills a prefix of the
  buffer and returns the byte count; the oracle `readResult` yields exactly
  the bytes deposited (the prefix), and the source's `?` operator discards
  the count, which the embedding mirrors by ignoring the length of that
  prefix.  Opening and configuring the device go through a `SpiEnv` oracle.
-/

namespace Spi

/-- Error kinds of `std::io::Error`, abstracted: the layer only ever
forwards them, so only distinguishability matters. -/
inductive IOErrorKind where
  | notFound
  | permissionDenied
  | invalidInput
  | timedOut
  | other (code : Nat)
deriving DecidableEq, Repr

/-- The `spidev::SpidevOptions` builder record: optional fields, all absent
until set by a builder call (mirrors the spidev crate's struct). -/
structure SpidevOptions where
  bits_per_word : Option Nat := none
  max_speed_hz : Option Nat := none
  lsb_first : Option Bool := none
  spi_mode : Option Nat := none
deriving DecidableEq, Repr

/-- `SpidevOptions::new()`: all fields unset. -/
def SpidevOptions.new : SpidevOptions := {}

/-- Builder `SpidevOptions::bits_per_word`. -/
def SpidevOptions.set_bits_per_word (o : SpidevOptions) (bpw : Nat) : SpidevOptions :=
  { o with bits_per_word := some bpw }

/-- Builder `SpidevOptions::max_speed_hz`. -/
def SpidevOptions.set_max_speed_hz (o : SpidevOptions) (speed : Nat) : SpidevOptions :=
  { o with max_speed_hz := some speed }

/-- Builder `SpidevOptions::mode` (takes the `SpiModeFlags` bitmask,
modelled as a `Nat`). -/
def SpidevOptions.set_mode (o : SpidevOptions) (mode : Nat) : SpidevOptions :=
  { o with spi_mode := some mode }

/-- `SpidevOptions::build()`: in the spidev crate this clones the builder,
so observationally it is the identity. -/
def SpidevOptions.build (o : SpidevOptions) : SpidevOptions := o

/-- Oracle model of an opened `spidev::Spidev` kernel device handle.  Each
field records the device's response to one kind of call:

* `writeResult data`: outcome of `Write::write(data)` — on success the
  count of bytes the device accepted;
* `readResult len`: outcome of `Read::read` into a buffer of length `len` —
  on success the bytes the device deposits into the front of the buffer;
* `transferResult tx`: outcome of the full-duplex ioctl for transmit data
  `tx` — on success the bytes the driver deposits into the front of the
  receive buffer. -/
structure Spidev where
  writeResult : List Nat → Except IOErrorKind Nat
  readResult : Nat → Except IOErrorKind (List Nat)
  transferResult : List Nat → Except IOErrorKind (List Nat)

/-- Environment oracle for `Spidev::open` and `Spidev::configure` (the
latter returns the device in its configured state). -/
structure SpiEnv where
  openDev : String → Except IOErrorKind Spidev
  configure : Spidev → SpidevOptions → Except IOErrorKind Spidev

/-- Deposit `bytes` into the front of `buf`, as `Read::read` and the
full-duplex ioctl do: the written prefix replaces the front of the buffer,
positions past it keep their previous content, and the buffer's length
never changes. -/
def fillBuf (buf bytes : List Nat) : List Nat :=
  bytes.take buf.length ++ buf.drop bytes.length

/-- The trait `Stream` of `src/lib.rs`, as a record of state-passing
operations over a transport state type `σ` (the model of the boxed trait
object's data). -/
structure Stream (σ : Type) where
  write : σ → List Nat → Except IOErrorKind Unit × σ
  read : σ → Nat → Except IOErrorKind (List Nat) × σ
  transfer : σ → List Nat → Except IOErrorKind (List Nat) × σ

/-- The struct `Connection`: owns exactly one transport, modelled as the
operation table `impl` (the vtable of the boxed `dyn Stream`) together with
the transport's current state. -/
structure Connection (σ : Type) where
  impl : Stream σ
  state : σ

/-- `Connection::new(stream)`: wraps a caller-supplied transport. -/
def Connection.new (impl : Stream σ) (state : σ) : Connection σ :=
  { impl := impl, state := state }

/-- `Connection::write`: `self.stream.write(data)`. -/
def Connection.write (c : Connection σ) (data : List Nat) :
    Except IOErrorKind Unit × Connection σ :=
  let r := c.impl.write c.state data
  (r.1, { c with state := r.2 })

/-- `Connection::read`: `self.stream.read(len)`. -/
def Connection.read (c : Connection σ) (len : Nat) :
    Except IOErrorKind (List Nat) × Connection σ :=
  let r := c.impl.read c.state len
  (r.1, { c with state := r.2 })

/-- `Connection::transfer`: `self.stream.transfer(data)`. -/
def Connection.transfer (c : Connection σ) (data : List Nat) :
    Except IOErrorKind (List Nat) × Connection σ :=
  let r := c.impl.transfer c.state data
  (r.1, { c with state := r.2 })

/-- The struct `SpiStream`: holds the opened and configured device. -/
structure SpiStream where
  spidev : Spidev

/-- `SpiStream::new(path, bpw, max_speed, mode)`: open the device at
`path`, build the options with the three builder calls, configure, and wrap
the device.  Each `?` of the source is a `match` propagating the error. -/
def SpiStream.new (env : SpiEnv) (path : String) (bpw : Nat) (max_speed : Nat)
    (mode : Nat) : Except IOErrorKind SpiStream :=
  match env.openDev path with
  | .error e => .error e
  | .ok spi =>
    let options :=
      (((SpidevOptions.new.set_bits_per_word bpw).set_max_speed_hz
        max_speed).set_mode mode).build
    match env.configure spi options with
    | .error e => .error e
    | .ok spi2 => .ok { spidev := spi2 }

/-- `<SpiStream as Stream>::write`: `match self.spidev.write(data)
{ Ok(_) => Ok(()), Err(e) => Err(e) }`.  The body assigns to no field of
`self`, so the model state is returned unchanged. -/
def SpiStream.write (s : SpiStream) (data : List Nat) :
    Except IOErrorKind Unit × SpiStream :=
  ((match s.spidev.writeResult data with
    | .ok _ => .ok ()
    | .error e => .error e), s)

/-- `<SpiStream as Stream>::read`: `let mut buf = vec![0u8; len];
self.spidev.read(&mut buf)?; Ok(buf)`.  The byte count returned by
`Read::read` is discarded by `?`; on success the zero-initialized buffer
with the device's bytes deposited at its front is returned whole. -/
def SpiStream.read (s : SpiStream) (len : Nat) :
    Except IOErrorKind (List Nat) × SpiStream :=
  let buf := List.replicate len 0
  ((match s.spidev.readResult len with
    | .error e => .error e
    | .ok bytes => .ok (fillBuf buf bytes)), s)

/-- `<SpiStream as Stream>::transfer`: `let mut buf = vec![0u8; data.len()];
let mut t = SpidevTransfer::read_write(data, &mut buf);
self.spidev.transfer(&mut t)?; Ok(buf)`.  The receiver is `&self`: no field
of `self` is (or can be) written, so the model state is returned
unchanged. -/
def SpiStream.transfer (s : SpiStream) (data : List Nat) :
    Except IOErrorKind (List Nat) × SpiStream :=
  let buf := List.replicate data.length 0
  ((match s.spidev.transferResult data with
    | .error e => .error e
    | .ok rx => .ok (fillBuf buf rx)), s)

/-- The `impl Stream for SpiStream` operation table. -/
def SpiStream.stream : Stream SpiStream :=
  { write := SpiStream.write
    read := SpiStream.read
    transfer := SpiStream.transfer }

/-- `Connection::from_path(path, bpw, max_speed, mode)`:
`Ok(Connection { stream: Box::new(SpiStream::new(path, bpw, max_speed,
mode)?) })`. -/
def Connection.from_path (env : SpiEnv) (path : String) (bpw : Nat)
    (max_speed : Nat) (mode : Nat) :
    Except IOErrorKind (Connection SpiStream) :=
  match SpiStream.new env path bpw max_speed mode with
  | .error e => .error e
  | .ok s => .ok { impl := SpiStream.stream, state := s }

/-! ### Test doubles and helper lemmas -/

/-- A mock transport over a trivial state, programmed as in the spec's
concrete scenarios: `transfer([0x01,0x02])` answers `[0xAA,0xBB]`, `write`
fails with a permission-denied error kind. -/
def scenarioMock : Stream Unit :=
  { write := fun s _ => (.error .permissionDenied, s)
    read := fun s n => (.ok (List.replicate n 0), s)
    transfer := fun s d =>
      ((if d = [0x01, 0x02] then .ok [0xAA, 0xBB]
        else .ok (List.replicate d.length 0)), s) }

/-- A device oracle that answers every call successfully: a write accepts
one byte, a read deposits the single byte `3`, a transfer deposits `7`s. -/
def testDev : Spidev :=
  { writeResult := fun _ => .ok 1
    readResult := fun _ => .ok [3]
    transferResult := fun d => .ok (List.replicate d.length 7) }

/-- A device oracle whose read succeeds but deposits no bytes at all (a
short read leaving the whole buffer unfilled). -/
def shortReadDev : Spidev :=
  { writeResult := fun _ => .ok 0
    readResult := fun _ => .ok []
    transferResult := fun _ => .ok [] }

/-- A device oracle that fails every call with a timeout error kind. -/
def failDev : Spidev :=
  { writeResult := fun _ => .error .timedOut
    readResult := fun _ => .error .timedOut
    transferResult := fun _ => .error .timedOut }

/-- Depositing bytes into a buffer never changes the buffer's length. -/
theorem fillBuf_length (buf bytes : List Nat) :
    (fillBuf buf bytes).length = buf.length := by
  simp [fillBuf]
  omega

/-- Dropping from an all-zero buffer leaves an all-zero buffer of the
remaining length. -/
theorem drop_replicate_zero (n m : Nat) :
    (List.replicate n (0 : Nat)).drop m = List.replicate (n - m) 0 := by
  induction n generalizing m with
  | zero => simp
  | succ k ih =>
    cases m with
    | zero => simp
    | succ m2 => simp [List.replicate_succ, ih m2]

/-- Every in-range position of an all-zero buffer holds `0`. -/
theorem getD_replicate_zero (n i d : Nat) (h : i < n) :
    (List.replicate n (0 : Nat)).getD i d = 0 := by
  simp [List.getD_eq_getElem?_getD, List.getElem?_replicate_of_lt h]

/-! ### Claim theorems -/

/-- C1: For every transport implementing the capability and every input,
`Connection::write`, `Connection::read`, and `Connection::transfer` each
return exactly the result (value or error) of the owned transport's
same-named operation applied to the same input and transport state, with
the transport's successor state installed unchanged (no buffering, retry,
or translation); in particular, a mock transport programmed to return
`[0xAA, 0xBB]` on `transfer([0x01,0x02])` yields
`Connection::transfer([0x01,0x02]) = Ok([0xAA,0xBB])`, and a mock write
error kind reaches the caller unchanged. -/
theorem C1_connection_forwards_verbatim :
    (∀ (σ : Type) (c : Connection σ) (data : List Nat) (len : Nat),
      (Connection.write c data).1 = (c.impl.write c.state data).1 ∧
      ((Connection.write c data).2).state = (c.impl.write c.state data).2 ∧
      (Connection.read c len).1 = (c.impl.read c.state len).1 ∧
      ((Connection.read c len).2).state = (c.impl.read c.state len).2 ∧
      (Connection.transfer c data).1 = (c.impl.transfer c.state data).1 ∧
      ((Connection.transfer c data).2).state = (c.impl.transfer c.state data).2) ∧
    (Connection.transfer (Connection.new scenarioMock ()) [0x01, 0x02]).1 =
      .ok [0xAA, 0xBB] ∧
    (Connection.write (Connection.new scenarioMock ()) [0x01]).1 =
      .error .permissionDenied := by
  refine ⟨fun σ c data len => ⟨rfl, rfl, rfl, rfl, rfl, rfl⟩, ?_, rfl⟩
  rfl

/-- C7: the `transfer` operation does not mutate transport-held state: the
`SpiStream` implementation returns its state unchanged (its receiver is a
read-only reference), and a `Connection` over any transport whose
`transfer` preserves state is itself left completely unchanged by a
`transfer` call, so all state observable by later calls is unaffected. -/
theorem C7_transfer_preserves_transport_state :
    (∀ (s : SpiStream) (data : List Nat), (SpiStream.transfer s data).2 = s) ∧
    (∀ (σ : Type) (c : Connection σ) (data : List Nat),
      (∀ (st : σ) (d : List Nat), (c.impl.transfer st d).2 = st) →
      (Connection.transfer c data).2 = c) := by
  refine ⟨fun s data => rfl, fun σ c data h => ?_⟩
  simp [Connection.transfer, h]

/-- C7 witness: a `transfer` against the mock-backed connection leaves the
connection exactly as constructed. -/
theorem C7_witness :
    (Connection.transfer (Connection.new scenarioMock ()) [0x01]).2 =
      Connection.new scenarioMock () :=
  C7_transfer_preserves_transport_state.2 Unit (Connection.new scenarioMock ())
    [0x01] (fun st d => rfl)

/-- C8: `SpiStream::new` passes exactly the given bits-per-word, max speed
and mode, each wrapped in `some` and otherwise unmodified, as the
configuration record handed to the device `configure` call on the opened
device — no translation, clamping, or defaulting happens in this layer. -/
theorem C8_options_passed_verbatim :
    ∀ (env : SpiEnv) (path : String) (bpw max_speed mode : Nat),
      SpiStream.new env path bpw max_speed mode =
        match env.openDev path with
        | .error e => .error e
        | .ok spi =>
          match env.configure spi
              { bits_per_word := some bpw, max_speed_hz := some max_speed,
                lsb_first := none, spi_mode := some mode } with
          | .error e => .error e
          | .ok spi2 => .ok { spidev := spi2 } :=
  fun env path bpw max_speed mode => rfl

/-- C9: a `Connection` holds exactly one transport (a single mandatory
field installed by the constructor) and no operation replaces it: `write`,
`read` and `transfer` all leave the installed operation table untouched. -/
theorem C9_transport_never_swapped :
    ∀ (σ : Type) (impl0 : Stream σ) (st0 : σ) (c : Connection σ)
      (data d2 : List Nat) (len : Nat),
      (Connection.new impl0 st0).impl = impl0 ∧
      ((Connection.write c data).2).impl = c.impl ∧
      ((Connection.read c len).2).impl = c.impl ∧
      ((Connection.transfer c d2).2).impl = c.impl :=
  fun σ impl0 st0 c data d2 len => ⟨rfl, rfl, rfl, rfl⟩

/-- C2: whenever the kernel-device transport's `read(n)` succeeds it
returns exactly `n` bytes, for every `n >= 0`; for `n = 0` a success is the
empty sequence, and the layer introduces no error of its own at `n = 0`:
an error surfaces only as the device read's own error, unchanged. -/
theorem C2_read_length_exact :
    (∀ (s : SpiStream) (len : Nat) (out : List Nat),
      (SpiStream.read s len).1 = .ok out → out.length = len) ∧
    (∀ (s : SpiStream) (out : List Nat),
      (SpiStream.read s 0).1 = .ok out → out = []) ∧
    (∀ (s : SpiStream) (e : IOErrorKind),
      (SpiStream.read s 0).1 = .error e → s.spidev.readResult 0 = .error e) := by
  refine ⟨fun s len out h => ?_, fun s out h => ?_, fun s e h => ?_⟩
  · unfold SpiStream.read at h
    cases hr : s.spidev.readResult len with
    | error e => rw [hr] at h; simp at h
    | ok bytes =>
      rw [hr] at h
      simp at h
      rw [← h, fillBuf_length, List.length_replicate]
  · unfold SpiStream.read at h
    cases hr : s.spidev.readResult 0 with
    | error e => rw [hr] at h; simp at h
    | ok bytes =>
      rw [hr] at h
      simp [fillBuf] at h
      exact h
  · unfold SpiStream.read at h
    cases hr : s.spidev.readResult 0 with
    | error e2 => rw [hr] at h; simp at h; rw [h]
    | ok bytes => rw [hr] at h; simp at h

/-- C2 witness: a 2-byte read against a device depositing one byte returns
a 2-byte sequence; a 0-byte read against the same device returns the empty
sequence; the failing device's error at `n = 0` is its own, unchanged. -/
theorem C2_witness :
    List.length ([3, 0] : List Nat) = 2 ∧
    ([] : List Nat) = [] ∧
    failDev.readResult 0 = .error .timedOut :=
  ⟨C2_read_length_exact.1 { spidev := testDev } 2 [3, 0] rfl,
   C2_read_length_exact.2.1 { spidev := testDev } [] rfl,
   C2_read_length_exact.2.2 { spidev := failDev } .timedOut rfl⟩

/-- C3: whenever the kernel-device transport's `transfer(data)` succeeds,
the returned byte sequence has length exactly `data.length`. -/
theorem C3_transfer_length_symmetric :
    ∀ (s : SpiStream) (data out : List Nat),
      (SpiStream.transfer s data).1 = .ok out → out.length = data.length := by
  intro s data out h
  unfold SpiStream.transfer at h
  cases hr : s.spidev.transferResult data with
  | error e => rw [hr] at h; simp at h
  | ok rx =>
    rw [hr] at h
    simp at h
    rw [← h, fillBuf_length, List.length_replicate]

/-- C3 witness: a transfer of two bytes against the test device returns a
sequence of length two. -/
theorem C3_witness :
    List.length ([7, 7] : List Nat) = List.length ([1, 2] : List Nat) :=
  C3_transfer_length_symmetric { spidev := testDev } [1, 2] [7, 7] rfl

/-- C5: the kernel-device transport's `write(data)` returns `Ok(())`
whenever the device write call returns without error — whatever byte count
it reports — and returns the device's I/O error unchanged otherwise. -/
theorem C5_write_success_semantics :
    ∀ (s : SpiStream) (data : List Nat),
      (∀ k, s.spidev.writeResult data = .ok k →
        (SpiStream.write s data).1 = .ok ()) ∧
      (∀ e, s.spidev.writeResult data = .error e →
        (SpiStream.write s data).1 = .error e) := by
  intro s data
  constructor
  · intro k hk
    unfold SpiStream.write
    rw [hk]
  · intro e he
    unfold SpiStream.write
    rw [he]

/-- C5 witness: the test device accepts one byte and the layer reports
plain success; the failing device's timeout write error is forwarded. -/
theorem C5_witness :
    (SpiStream.write { spidev := testDev } [1]).1 = .ok () ∧
    (SpiStream.write { spidev := failDev } [1]).1 = .error .timedOut :=
  ⟨(C5_write_success_semantics { spidev := testDev } [1]).1 1 rfl,
   (C5_write_success_semantics { spidev := failDev } [1]).2 .timedOut rfl⟩

/-- C4 counterexample: against a device whose read succeeds while
depositing no bytes (the 1-byte buffer stays unfilled), `read(1)` does not
return an I/O error — it returns `Ok([0])` — refuting the claim that an
unfilled buffer is surfaced as a failure. -/
theorem C4_counterexample :
    shortReadDev.readResult 1 = .ok [] ∧
    List.length ([] : List Nat) < 1 ∧
    (SpiStream.read { spidev := shortReadDev } 1).1 = .ok [0] ∧
    ¬ ∃ e, (SpiStream.read { spidev := shortReadDev } 1).1 = .error e := by
  refine ⟨rfl, by decide, rfl, ?_⟩
  rintro ⟨e, h⟩
  simp [SpiStream.read, shortReadDev, fillBuf] at h

/-- C4 (amended): the kernel-device transport's `read(n)` returns an I/O
error exactly when the underlying device read itself errors, and that error
unchanged; a device read reported successful is accepted without checking
the byte count, so an unfilled buffer is not surfaced as a failure — the
call returns `Ok` of the zero-initialized buffer with the deposited bytes
at its front, with no retry and no partial-result recovery. -/
theorem C4_read_error_iff_device_error :
    ∀ (s : SpiStream) (len : Nat),
      (∀ e, (SpiStream.read s len).1 = .error e ↔
        s.spidev.readResult len = .error e) ∧
      (∀ bytes, s.spidev.readResult len = .ok bytes →
        (SpiStream.read s len).1 = .ok (fillBuf (List.replicate len 0) bytes)) := by
  intro s len
  constructor
  · intro e
    unfold SpiStream.read
    cases hr : s.spidev.readResult len with
    | error e2 => simp [hr]
    | ok bytes => simp [hr]
  · intro bytes hb
    unfold SpiStream.read
    rw [hb]

/-- C4 witness: the failing device's read error is surfaced unchanged, and
the short-reading device's successful-but-empty read yields `Ok` of the
still-zeroed buffer. -/
theorem C4_witness :
    ((SpiStream.read { spidev := failDev } 2).1 = .error .timedOut ↔
      failDev.readResult 2 = .error .timedOut) ∧
    (SpiStream.read { spidev := shortReadDev } 2).1 =
      .ok (fillBuf (List.replicate 2 0) []) :=
  ⟨(C4_read_error_iff_device_error { spidev := failDev } 2).1 .timedOut,
   (C4_read_error_iff_device_error { spidev := shortReadDev } 2).2 [] rfl⟩

/-- C6: `Connection::from_path` propagates an open failure or a configure
failure unchanged and produces no Connection in either case; when both
steps succeed it returns `Ok` of a Connection owning the kernel-device
transport built around the configured device. -/
theorem C6_from_path_propagates_failures :
    ∀ (env : SpiEnv) (path : String) (bpw max_speed mode : Nat),
      (∀ e, env.openDev path = .error e →
        Connection.from_path env path bpw max_speed mode = .error e) ∧
      (∀ spi e, env.openDev path = .ok spi →
        env.configure spi
            { bits_per_word := some bpw, max_speed_hz := some max_speed,
              lsb_first := none, spi_mode := some mode } = .error e →
        Connection.from_path env path bpw max_speed mode = .error e) ∧
      (∀ spi spi2, env.openDev path = .ok spi →
        env.configure spi
            { bits_per_word := some bpw, max_speed_hz := some max_speed,
              lsb_first := none, spi_mode := some mode } = .ok spi2 →
        Connection.from_path env path bpw max_speed mode =
          .ok { impl := SpiStream.stream, state := { spidev := spi2 } }) := by
  intro env path bpw max_speed mode
  refine ⟨fun e h1 => ?_, fun spi e h1 h2 => ?_, fun spi spi2 h1 h2 => ?_⟩
  · unfold Connection.from_path SpiStream.new
    rw [h1]
  · unfold Connection.from_path SpiStream.new
    rw [h1]
    simp only [SpidevOptions.new, SpidevOptions.set_bits_per_word,
      SpidevOptions.set_max_speed_hz, SpidevOptions.set_mode,
      SpidevOptions.build]
    rw [h2]
  · unfold Connection.from_path SpiStream.new
    rw [h1]
    simp only [SpidevOptions.new, SpidevOptions.set_bits_per_word,
      SpidevOptions.set_max_speed_hz, SpidevOptions.set_mode,
      SpidevOptions.build]
    rw [h2]

/-- C6 witness: a not-found open error and an invalid-input configure error
each abort construction with that exact error, and a fully successful
environment yields the connection owning the configured device. -/
theorem C6_witness :
    Connection.from_path
      { openDev := fun _ => .error .notFound, configure := fun spi _ => .ok spi }
      "/dev/spidev0.0" 8 1000000 0 = .error .notFound ∧
    Connection.from_path
      { openDev := fun _ => .ok testDev, configure := fun _ _ => .error .invalidInput }
      "/dev/spidev0.0" 8 1000000 0 = .error .invalidInput ∧
    Connection.from_path
      { openDev := fun _ => .ok testDev, configure := fun spi _ => .ok spi }
      "/dev/spidev0.0" 8 1000000 0 =
      .ok { impl := SpiStream.stream, state := { spidev := testDev } } :=
  ⟨(C6_from_path_propagates_failures
      { openDev := fun _ => .error .notFound, configure := fun spi _ => .ok spi }
      "/dev/spidev0.0" 8 1000000 0).1 .notFound rfl,
   (C6_from_path_propagates_failures
      { openDev := fun _ => .ok testDev, configure := fun _ _ => .error .invalidInput }
      "/dev/spidev0.0" 8 1000000 0).2.1 testDev .invalidInput rfl rfl,
   (C6_from_path_propagates_failures
      { openDev := fun _ => .ok testDev, configure := fun spi _ => .ok spi }
      "/dev/spidev0.0" 8 1000000 0).2.2 testDev testDev rfl rfl⟩

/-- C10: the kernel-device transport's `read(n)` zero-initializes the full
`n`-byte buffer before invoking the device read, so whenever the device
read succeeds after depositing only a prefix, the returned sequence is that
prefix followed by zeros: every position the device did not overwrite
is `0`. -/
theorem C10_read_buffer_zero_initialized :
    ∀ (s : SpiStream) (len : Nat) (bytes : List Nat),
      s.spidev.readResult len = .ok bytes → bytes.length ≤ len →
      (SpiStream.read s len).1 =
        .ok (bytes ++ List.replicate (len - bytes.length) 0) ∧
      (∀ i, bytes.length ≤ i → i < len →
        (bytes ++ List.replicate (len - bytes.length) 0).getD i 1 = 0) := by
  intro s len bytes hb hle
  constructor
  · unfold SpiStream.read
    rw [hb]
    have hf : fillBuf (List.replicate len 0) bytes =
        bytes ++ List.replicate (len - bytes.length) 0 := by
      unfold fillBuf
      rw [List.length_replicate, List.take_of_length_le hle, drop_replicate_zero]
    simp [hf]
  · intro i hi hil
    rw [List.getD_append_right _ _ _ _ hi]
    exact getD_replicate_zero _ _ _ (by omega)

/-- C10 witness: a 3-byte read against a device depositing the single byte
`3` returns `[3, 0, 0]`, and its untouched position 2 holds `0`. -/
theorem C10_witness :
    (SpiStream.read { spidev := testDev } 3).1 =
      .ok (([3] : List Nat) ++ List.replicate (3 - List.length ([3] : List Nat)) 0) ∧
    (([3] : List Nat) ++ List.replicate (3 - List.length ([3] : List Nat)) 0).getD 2 1 = 0 :=
  ⟨(C10_read_buffer_zero_initialized { spidev := testDev } 3 [3] rfl (by decide)).1,
   (C10_read_buffer_zero_initialized { spidev := testDev } 3 [3] rfl (by decide)).2
     2 (by decide) (by decide)⟩

end Spi
